import Mathlib

/-!
# Verification of `cog/server/runner.py`

A shallow embedding of the prediction runner: the event-translation state
machine (`PredictionEventHandler` / `_predict`), the setup driver (`setup`),
the admission controller (`PredictionRunner`), and the file-upload HTTP
client configuration (`_make_file_upload_http_client`).

Conventions of the embedding:
* timestamps (`datetime.now`) are modelled by a `Nat` clock carried in the
  handler state and advanced once per processed event;
* Python exceptions (assertion failures, `FileUploadError`) are modelled by
  an explicit `PredictException` value propagated through `Except`-style
  outcomes;
* the optional file uploader (`self._file_uploader`) is passed as a
  parameter `Option (String → Option String)`: `none` result means the
  uploader raised;
* webhook delivery is modelled by recording the event tags passed to
  `_send_webhook` (when a sender is configured) in a list.
-/

namespace Cog

/-- `schema.Status` values used by the runner. -/
inductive Status
  | processing
  | succeeded
  | failed
  | canceled
deriving DecidableEq, Repr

/-- A status is terminal when it is succeeded, failed or canceled. -/
def Status.isTerminal : Status → Bool
  | .processing => false
  | .succeeded => true
  | .failed => true
  | .canceled => true

/-- `schema.WebhookEvent` tags. -/
inductive WebhookEvent
  | start
  | output
  | logs
  | completed
deriving DecidableEq, Repr

/-- The value stored in `response.output`: either a single payload or a
(Python) list of payloads. -/
inductive OutputValue
  | single (v : String)
  | list (vs : List String)
deriving DecidableEq, Repr

/-- Worker events consumed by `_predict`
(`Heartbeat`, `Log`, `PredictionOutputType`, `PredictionOutput`, `Done`). -/
inductive Event
  | heartbeat
  | log (message : String)
  | outputType (multi : Bool)
  | output (payload : String)
  | done (canceled : Bool) (error : Bool) (error_detail : String)
deriving DecidableEq, Repr

/-- Whether an event is a `Done` event. -/
def Event.isDone : Event → Bool
  | .done _ _ _ => true
  | _ => false

/-- Python exceptions that can escape the event-handler methods:
`AssertionError` (from `assert` statements) and `FileUploadError`. -/
inductive PredictException
  | assertionError (msg : String)
  | fileUploadError (msg : String)
deriving DecidableEq, Repr

/-- `str(e)` for the modelled exceptions. -/
def PredictException.message : PredictException → String
  | .assertionError m => m
  | .fileUploadError m => m

/-- `traceback.format_exc()` as recorded into the logs: an opaque traceback
text determined by the exception. -/
def tracebackText (e : PredictException) : String :=
  "Traceback (most recent call last): " ++ e.message ++ "\n"

/-- `schema.PredictionResponse`, restricted to the fields the runner
touches. `started_at` is always set by the handler constructor, so it is
not optional here. -/
structure PredictionResponse where
  id : Option String
  status : Status
  output : Option OutputValue
  logs : String
  error : Option String
  started_at : Nat
  completed_at : Option Nat
  metrics : Option Nat
deriving DecidableEq, Repr

/-- Mutable state of a `PredictionEventHandler`: the response `p`, the tags
sent through `_send_webhook` (oldest first), whether a webhook sender was
configured, and the current clock. -/
structure EventHandler where
  p : PredictionResponse
  webhooks_sent : List WebhookEvent
  hasSender : Bool
  clock : Nat
deriving DecidableEq, Repr

namespace EventHandler

/-- `PredictionEventHandler._send_webhook`: records the tag when a sender
is configured, otherwise does nothing. -/
def _send_webhook (h : EventHandler) (ev : WebhookEvent) : EventHandler :=
  if h.hasSender then { h with webhooks_sent := h.webhooks_sent ++ [ev] } else h

/-- `PredictionEventHandler.__init__`: status `PROCESSING`, empty output and
logs, `started_at` now; sends the `START` webhook unless `SKIP_START_EVENT`. -/
def init (id : Option String) (hasSender : Bool) (skipStartEvent : Bool)
    (now : Nat) : EventHandler :=
  let h : EventHandler :=
    { p := { id := id, status := .processing, output := none, logs := "",
             error := none, started_at := now, completed_at := none,
             metrics := none },
      webhooks_sent := [], hasSender := hasSender, clock := now }
  if ¬skipStartEvent then h._send_webhook .start else h

/-- `PredictionEventHandler._upload_files` applied to a single payload:
no uploader configured returns the payload unchanged; an uploader failure
raises `FileUploadError`. -/
def _upload_files (uploader : Option (String → Option String))
    (payload : String) : Except PredictException String :=
  match uploader with
  | none => .ok payload
  | some f =>
    match f payload with
    | some out => .ok out
    | none => .error (.fileUploadError "Got error trying to upload output files")

/-- `_upload_files` applied to an output value (single payload or list). -/
def _upload_files_value (uploader : Option (String → Option String)) :
    OutputValue → Except PredictException OutputValue
  | .single v =>
    match _upload_files uploader v with
    | .ok v' => .ok (.single v')
    | .error e => .error e
  | .list vs =>
    match vs.mapM (_upload_files uploader) with
    | .ok vs' => .ok (.list vs')
    | .error e => .error e

/-- `PredictionEventHandler.set_output`: asserts no output was set yet,
then stores the (uploaded) value. No webhook is sent. -/
def set_output (uploader : Option (String → Option String))
    (h : EventHandler) (output : OutputValue) :
    Except PredictException EventHandler :=
  if h.p.output ≠ none then
    .error (.assertionError "Predictor unexpectedly returned multiple outputs")
  else
    match _upload_files_value uploader output with
    | .ok v => .ok { h with p := { h.p with output := some v } }
    | .error e => .error e

/-- `PredictionEventHandler.append_output`: asserts the output is a list,
appends the (uploaded) payload and sends an `OUTPUT` webhook. -/
def append_output (uploader : Option (String → Option String))
    (h : EventHandler) (payload : String) :
    Except PredictException EventHandler :=
  match h.p.output with
  | some (.list vs) =>
    match _upload_files uploader payload with
    | .ok v =>
      let h' : EventHandler := { h with p := { h.p with output := some (.list (vs ++ [v])) } }
      .ok (h'._send_webhook .output)
    | .error e => .error e
  | _ => .error (.assertionError "Cannot append output before setting output")

/-- `PredictionEventHandler.append_logs`: appends to the log text and sends
a `LOGS` webhook. -/
def append_logs (h : EventHandler) (logs : String) : EventHandler :=
  ({ h with p := { h.p with logs := h.p.logs ++ logs } } : EventHandler)._send_webhook .logs

/-- `PredictionEventHandler._set_completed_at`: records the current clock. -/
def _set_completed_at (h : EventHandler) : EventHandler :=
  { h with p := { h.p with completed_at := some h.clock } }

/-- `PredictionEventHandler.succeeded`: status `SUCCEEDED`, completion
timestamp, `predict_time` metric, `COMPLETED` webhook. -/
def succeeded (h : EventHandler) : EventHandler :=
  let h := { h with p := { h.p with status := .succeeded } }
  let h := h._set_completed_at
  let h := { h with
    p := { h.p with
      metrics := some ((h.p.completed_at.getD 0) - h.p.started_at) } }
  h._send_webhook .completed

/-- `PredictionEventHandler.failed`: status `FAILED`, error message,
completion timestamp, `COMPLETED` webhook. -/
def failed (h : EventHandler) (error : String) : EventHandler :=
  let h := { h with p := { h.p with status := .failed, error := some error } }
  let h := h._set_completed_at
  h._send_webhook .completed

/-- `PredictionEventHandler.canceled`: status `CANCELED`, completion
timestamp, `COMPLETED` webhook. -/
def canceled (h : EventHandler) : EventHandler :=
  let h := { h with p := { h.p with status := .canceled } }
  let h := h._set_completed_at
  h._send_webhook .completed

end EventHandler

/-- Local state of the `_predict` event loop: the event handler, the
`output_type` local variable (the declared `multi` flag, once any),
the shared `should_cancel` flag and the number of `worker.cancel()`
calls issued so far. -/
structure PredictState where
  handler : EventHandler
  output_type : Option Bool
  should_cancel : Bool
  worker_cancels : Nat
deriving DecidableEq, Repr

/-- Outcome of processing one event in `_predict`'s loop body:
continue with the next event, `break` out of the loop, or propagate an
exception. -/
inductive StepResult
  | next (s : PredictState)
  | halt (s : PredictState)
  | raised (s : PredictState) (e : PredictException)
deriving DecidableEq, Repr

/-- The state carried by a `StepResult`. -/
def StepResult.state : StepResult → PredictState
  | .next s => s
  | .halt s => s
  | .raised s _ => s

/-- The cancellation poll at the top of `_predict`'s loop body: when
`should_cancel` is set, call `worker.cancel()` and clear the flag. -/
def pollCancel (s : PredictState) : PredictState :=
  if s.should_cancel then
    { s with should_cancel := false, worker_cancels := s.worker_cancels + 1 }
  else s

/-- One iteration of the `for event in worker.predict(...)` loop in
`_predict`: advance the clock, poll the cancellation flag, then dispatch
on the event. -/
def predictStep (uploader : Option (String → Option String))
    (s : PredictState) (e : Event) : StepResult :=
  let s := { s with handler := { s.handler with clock := s.handler.clock + 1 } }
  let s := pollCancel s
  match e with
  | .heartbeat => .next s
  | .log message => .next { s with handler := s.handler.append_logs message }
  | .outputType multi =>
    if s.output_type ≠ none then
      .halt { s with handler := s.handler.failed "Predictor returned unexpected output" }
    else
      let s := { s with output_type := some multi }
      if multi then
        match s.handler.set_output uploader (.list []) with
        | .ok h => .next { s with handler := h }
        | .error ex => .raised s ex
      else .next s
  | .output payload =>
    match s.output_type with
    | none =>
      .halt { s with handler := s.handler.failed "Predictor returned unexpected output" }
    | some multi =>
      if multi then
        match s.handler.append_output uploader payload with
        | .ok h => .next { s with handler := h }
        | .error ex => .raised s ex
      else
        match s.handler.set_output uploader (.single payload) with
        | .ok h => .next { s with handler := h }
        | .error ex => .raised s ex
  | .done c err detail =>
    if c then .next { s with handler := s.handler.canceled }
    else if err then .next { s with handler := s.handler.failed detail }
    else .next { s with handler := s.handler.succeeded }

/-- How `_predict`'s event loop ended: the stream was exhausted, the loop
broke out early, or an exception propagated. -/
inductive RunOutcome
  | finished (s : PredictState)
  | halted (s : PredictState)
  | raised (s : PredictState) (e : PredictException)
deriving DecidableEq, Repr

/-- The state carried by a `RunOutcome`. -/
def RunOutcome.state : RunOutcome → PredictState
  | .finished s => s
  | .halted s => s
  | .raised s _ => s

/-- The `_predict` event loop over a finite event stream. -/
def runEvents (uploader : Option (String → Option String)) :
    List Event → PredictState → RunOutcome
  | [], s => .finished s
  | e :: es, s =>
    match predictStep uploader s e with
    | .next s' => runEvents uploader es s'
    | .halt s' => .halted s'
    | .raised s' ex => .raised s' ex

/-- The loop state after running `_predict` over `evs` (at an exception,
the state at the raise point). -/
def finalState (uploader : Option (String → Option String))
    (evs : List Event) (s : PredictState) : PredictState :=
  (runEvents uploader evs s).state

/-- The `predict` coroutine wrapping `_predict`: on an exception it appends
the traceback to the logs, marks the result failed with `str(e)`, and
re-raises; the pair returned is the final handler state together with the
exception (if any) escaping the task. -/
def predictTask (uploader : Option (String → Option String))
    (evs : List Event) (s : PredictState) :
    PredictState × Option PredictException :=
  match runEvents uploader evs s with
  | .finished s' => (s', none)
  | .halted s' => (s', none)
  | .raised s' ex =>
    let h := s'.handler.append_logs (tracebackText ex)
    let h := h.failed ex.message
    ({ s' with handler := h }, some ex)

/-- `PredictionRunner.make_error_handler`'s `handle_error` callback: when
the completed task holds an exception, set the shutdown event (when one is
configured). The shutdown event is `none` when absent, otherwise
`some flag`. -/
def handle_error (shutdown_event : Option Bool)
    (taskException : Option PredictException) : Option Bool :=
  match taskException with
  | none => shutdown_event
  | some _ =>
    match shutdown_event with
    | none => none
    | some _ => some true

/-! ## The admission controller (`PredictionRunner`) -/

/-- Whether an outstanding task is the setup task or a predict task. -/
inductive TaskKind
  | setupTask
  | predictTask
deriving DecidableEq, Repr

/-- An `asyncio.Task` handle as seen by the runner: its kind, whether it
has completed, and an allocation identifier standing for Python object
identity. -/
structure RunnerTask where
  kind : TaskKind
  isDone : Bool
  taskId : Nat
deriving DecidableEq, Repr

/-- `PredictionRunner` state: `_response`, `_result`, `_should_cancel`,
plus a clock (for `started_at` of fresh responses) and the next task
allocation identifier. -/
structure RunnerState where
  response : Option PredictionResponse
  result : Option RunnerTask
  should_cancel : Bool
  clock : Nat
  nextTaskId : Nat
deriving DecidableEq, Repr

/-- Errors raised by the runner's caller-facing methods. -/
inductive RunnerError
  | busy
  | unknownPrediction
  | assertionFailed
deriving DecidableEq, Repr

namespace PredictionRunner

/-- `PredictionRunner.is_busy`: false when no task is stored; true when the
stored task is not done; when the stored task has completed, clears
`_response` and `_result` and returns false. -/
def is_busy (s : RunnerState) : Bool × RunnerState :=
  match s.result with
  | none => (false, s)
  | some t =>
    if ¬t.isDone then (true, s)
    else (false, { s with response := none, result := none })

/-- The fresh `PredictionResponse` built by `create_event_handler` for a
newly admitted prediction (the handler constructor's initialisation). -/
def newResponse (id : Option String) (now : Nat) : PredictionResponse :=
  { id := id, status := .processing, output := none, logs := "",
    error := none, started_at := now, completed_at := none, metrics := none }

/-- `PredictionRunner.predict`: when busy, raise `RunnerBusyError` if setup
is outstanding (`_response` is `None`); return the stored
(response, task) pair if the incoming id is not `None` and equals the
active response's id; otherwise raise `RunnerBusyError`. When idle, clear
the cancellation flag, build a fresh response and task, store and return
them. -/
def predict (s : RunnerState) (predictionId : Option String) :
    Except RunnerError (PredictionResponse × RunnerTask) × RunnerState :=
  let (busy, s) := is_busy s
  if busy then
    match s.response with
    | none => (.error .busy, s)
    | some resp =>
      match s.result with
      | none => (.error .assertionFailed, s)
      | some t =>
        if predictionId ≠ none ∧ predictionId = resp.id then
          (.ok (resp, t), s)
        else (.error .busy, s)
  else
    let s := { s with should_cancel := false }
    let resp := newResponse predictionId s.clock
    let t : RunnerTask :=
      { kind := .predictTask, isDone := false, taskId := s.nextTaskId }
    (.ok (resp, t),
     { s with response := some resp, result := some t,
              nextTaskId := s.nextTaskId + 1 })

/-- `PredictionRunner.setup`: raise `RunnerBusyError` when busy, otherwise
store and return a fresh setup task. -/
def setup (s : RunnerState) : Except RunnerError RunnerTask × RunnerState :=
  let (busy, s) := is_busy s
  if busy then (.error .busy, s)
  else
    let t : RunnerTask :=
      { kind := .setupTask, isDone := false, taskId := s.nextTaskId }
    (.ok t, { s with result := some t, nextTaskId := s.nextTaskId + 1 })

/-- `PredictionRunner.cancel`: return silently when not busy; assert that
`_response` is set; raise `UnknownPredictionError` when an id is given and
differs from the active response's id; otherwise set `_should_cancel`. -/
def cancel (s : RunnerState) (predictionId : Option String) :
    Except RunnerError Unit × RunnerState :=
  let (busy, s) := is_busy s
  if ¬busy then (.ok (), s)
  else
    match s.response with
    | none => (.error .assertionFailed, s)
    | some resp =>
      if predictionId ≠ none ∧ predictionId ≠ resp.id then
        (.error .unknownPrediction, s)
      else (.ok (), { s with should_cancel := true })

end PredictionRunner

/-! ## The setup driver (`setup` coroutine) -/

/-- Worker events consumed by the `setup` coroutine (`Log` and `Done`). -/
inductive SetupEvent
  | log (message : String)
  | done (error : Bool)
deriving DecidableEq, Repr

/-- Whether a setup event is a `Done` event. -/
def SetupEvent.isDone : SetupEvent → Bool
  | .done _ => true
  | _ => false

/-- `SetupResult`. -/
structure SetupResult where
  started_at : Nat
  completed_at : Nat
  logs : String
  status : Status
deriving DecidableEq, Repr

/-- The `setup` coroutine's result together with the number of times the
readiness probe was signalled. -/
structure SetupOutcome where
  result : SetupResult
  readySignals : Nat
deriving DecidableEq, Repr

/-- One iteration of `setup`'s event loop over the accumulated
(logs, status) pair. -/
def setupStep (acc : List String × Option Status) (e : SetupEvent) :
    List String × Option Status :=
  match e with
  | .log message => (acc.1 ++ [message], acc.2)
  | .done error => (acc.1, some (if error then .failed else .succeeded))

/-- The `setup` coroutine: fold the event stream (`streamExc` models an
exception raised by the stream after yielding `evs`: its traceback is
logged and the status forced to failed); append the missing-done
diagnostic when no `Done` arrived; signal the readiness probe only on
success. -/
def runSetup (evs : List SetupEvent) (streamExc : Option String)
    (started finished : Nat) : SetupOutcome :=
  let acc := evs.foldl setupStep ([], none)
  let acc :=
    match streamExc with
    | none => acc
    | some tb => (acc.1 ++ [tb], some Status.failed)
  let acc :=
    match acc.2 with
    | none => (acc.1 ++ ["Error: did not receive 'done' event from setup!"],
               Status.failed)
    | some st => (acc.1, st)
  { result := { started_at := started, completed_at := finished,
                logs := String.join acc.1, status := acc.2 },
    readySignals := if acc.2 = Status.succeeded then 1 else 0 }

/-! ## The file-upload HTTP client (`_make_file_upload_http_client`) -/

/-- The `urllib3.util.retry.Retry` configuration, as constructed by the
runner. `backoff_factor` is the exact rational value of the float literal. -/
structure Retry where
  total : Nat
  backoff_factor : ℚ
  status_forcelist : List Nat
  allowed_methods : List String
deriving DecidableEq, Repr

/-- A `requests.Session` restricted to what the runner configures: the
retry policy of its mounted adapter and the URL prefixes it is mounted on. -/
structure Session where
  max_retries : Retry
  mounts : List String
deriving DecidableEq, Repr

/-- `_make_file_upload_http_client`: a session whose HTTP adapter retries
up to 3 times with backoff factor 0.1 on status codes
408, 429, 500, 502, 503, 504, for PUT requests only, mounted for both
`http://` and `https://`. -/
def _make_file_upload_http_client : Session :=
  { max_retries :=
      { total := 3, backoff_factor := 1 / 10,
        status_forcelist := [408, 429, 500, 502, 503, 504],
        allowed_methods := ["PUT"] },
    mounts := ["http://", "https://"] }

/-- Modelled from the spec: the retry decision applied by the HTTP client
beneath the runner (the `urllib3` collaborator, outside this repository):
a further attempt is made only while fewer than `total` attempts have been
made, only on a listed status code, and only for a listed method. -/
def Retry.shouldRetry (r : Retry) (method : String) (statusCode : Nat)
    (attemptsSoFar : Nat) : Bool :=
  attemptsSoFar < r.total ∧ statusCode ∈ r.status_forcelist ∧
    method ∈ r.allowed_methods

/-- Modelled from the spec: the `urllib3` exponential backoff before retry
`n` (1-based), starting at `backoff_factor`. -/
def Retry.backoffDelay (r : Retry) (n : Nat) : ℚ :=
  r.backoff_factor * 2 ^ (n - 1)

/-! ## Concrete fixtures used by witnesses and counterexamples -/

/-- A freshly initialised event handler for prediction `"p1"` with a
webhook sender configured and the start event not skipped. -/
def handler0 : EventHandler := EventHandler.init (some "p1") true false 0

/-- The `_predict` loop state right before the first event. -/
def predictState0 : PredictState :=
  { handler := handler0, output_type := none, should_cancel := false,
    worker_cancels := 0 }

/-- A runner busy with prediction `"p1"`. -/
def runnerBusyPredict : RunnerState :=
  { response := some (PredictionRunner.newResponse (some "p1") 0),
    result := some { kind := .predictTask, isDone := false, taskId := 0 },
    should_cancel := false, clock := 0, nextTaskId := 1 }

/-- A runner busy with setup (no response stored). -/
def runnerBusySetup : RunnerState :=
  { response := none,
    result := some { kind := .setupTask, isDone := false, taskId := 0 },
    should_cancel := false, clock := 0, nextTaskId := 1 }

/-- An idle runner. -/
def runnerIdle : RunnerState :=
  { response := none, result := none, should_cancel := false,
    clock := 0, nextTaskId := 0 }

/-- A runner whose outstanding prediction task has completed but has not
yet been reclaimed. -/
def runnerFinished : RunnerState :=
  { response := some (PredictionRunner.newResponse (some "p1") 0),
    result := some { kind := .predictTask, isDone := true, taskId := 0 },
    should_cancel := false, clock := 3, nextTaskId := 1 }

/-! ## Theorems

First, projection lemmas for the event-handler methods. -/

theorem EventHandler._send_webhook_p (h : EventHandler) (ev : WebhookEvent) :
    (h._send_webhook ev).p = h.p := by
  unfold EventHandler._send_webhook
  split <;> rfl

theorem EventHandler._send_webhook_clock (h : EventHandler) (ev : WebhookEvent) :
    (h._send_webhook ev).clock = h.clock := by
  unfold EventHandler._send_webhook
  split <;> rfl

theorem EventHandler._send_webhook_sent (h : EventHandler) (ev : WebhookEvent)
    (hs : h.hasSender = true) :
    (h._send_webhook ev).webhooks_sent = h.webhooks_sent ++ [ev] := by
  unfold EventHandler._send_webhook
  simp [hs]

theorem EventHandler.failed_p (h : EventHandler) (msg : String) :
    (h.failed msg).p =
      { h.p with status := .failed, error := some msg,
                 completed_at := some h.clock } := by
  unfold EventHandler.failed EventHandler._set_completed_at
  rw [EventHandler._send_webhook_p]

theorem EventHandler.canceled_p (h : EventHandler) :
    (h.canceled).p =
      { h.p with status := .canceled, completed_at := some h.clock } := by
  unfold EventHandler.canceled EventHandler._set_completed_at
  rw [EventHandler._send_webhook_p]

theorem EventHandler.succeeded_p (h : EventHandler) :
    (h.succeeded).p =
      { h.p with status := .succeeded, completed_at := some h.clock,
                 metrics := some (h.clock - h.p.started_at) } := by
  unfold EventHandler.succeeded EventHandler._set_completed_at
  rw [EventHandler._send_webhook_p]
  rfl

theorem EventHandler.append_logs_p (h : EventHandler) (l : String) :
    (h.append_logs l).p = { h.p with logs := h.p.logs ++ l } := by
  unfold EventHandler.append_logs
  rw [EventHandler._send_webhook_p]

theorem EventHandler.failed_sent (h : EventHandler) (msg : String)
    (hs : h.hasSender = true) :
    (h.failed msg).webhooks_sent = h.webhooks_sent ++ [.completed] := by
  simp [EventHandler.failed, EventHandler._set_completed_at,
    EventHandler._send_webhook, hs]

theorem EventHandler.canceled_sent (h : EventHandler)
    (hs : h.hasSender = true) :
    (h.canceled).webhooks_sent = h.webhooks_sent ++ [.completed] := by
  simp [EventHandler.canceled, EventHandler._set_completed_at,
    EventHandler._send_webhook, hs]

theorem EventHandler.succeeded_sent (h : EventHandler)
    (hs : h.hasSender = true) :
    (h.succeeded).webhooks_sent = h.webhooks_sent ++ [.completed] := by
  simp [EventHandler.succeeded, EventHandler._set_completed_at,
    EventHandler._send_webhook, hs]

theorem EventHandler.append_logs_sent (h : EventHandler) (l : String)
    (hs : h.hasSender = true) :
    (h.append_logs l).webhooks_sent = h.webhooks_sent ++ [.logs] := by
  simp [EventHandler.append_logs, EventHandler._send_webhook, hs]

theorem pollCancel_handler (s : PredictState) :
    (pollCancel s).handler = s.handler := by
  unfold pollCancel
  split <;> rfl

theorem pollCancel_output_type (s : PredictState) :
    (pollCancel s).output_type = s.output_type := by
  unfold pollCancel
  split <;> rfl

theorem pollCancel_of_set (s : PredictState) (hc : s.should_cancel = true) :
    pollCancel s =
      { s with should_cancel := false,
               worker_cancels := s.worker_cancels + 1 } := by
  simp [pollCancel, hc]

/-- C1: while a task is outstanding, `predict` fails with
`RunnerBusyError` when the outstanding task is setup (no response stored);
it returns the stored in-flight (response, task) pair — the same objects,
with the runner state unchanged — when the incoming id is present and
equals the active response's id; and it fails with `RunnerBusyError` in
every other busy case. -/
theorem predict_busy_dedup (s : RunnerState) (t : RunnerTask)
    (pid : Option String) (hres : s.result = some t) (hrun : t.isDone = false) :
    (s.response = none →
      PredictionRunner.predict s pid = (.error .busy, s)) ∧
    (∀ resp i, s.response = some resp → pid = some i → resp.id = some i →
      PredictionRunner.predict s pid = (.ok (resp, t), s)) ∧
    (∀ resp, s.response = some resp → (¬∃ i, pid = some i ∧ resp.id = some i) →
      PredictionRunner.predict s pid = (.error .busy, s)) := by
  have hbusy : PredictionRunner.is_busy s = (true, s) := by
    unfold PredictionRunner.is_busy
    rw [hres]
    simp [hrun]
  refine ⟨?_, ?_, ?_⟩
  · intro hresp
    simp [PredictionRunner.predict, hbusy, hresp]
  · intro resp i hresp hpid hid
    subst hpid
    simp [PredictionRunner.predict, hbusy, hresp, hres, hid]
  · intro resp hresp hne
    have hcond : ¬(pid ≠ none ∧ pid = resp.id) := by
      rintro ⟨h1, h2⟩
      rcases pid with _ | i
      · exact h1 rfl
      · exact hne ⟨i, rfl, h2.symm⟩
    simp only [PredictionRunner.predict, hbusy, hresp, hres]
    rw [if_neg hcond]
    simp

/-- C1 witness: with a runner busy on prediction `"p1"`, re-submitting
`"p1"` returns the stored handles unchanged, submitting `"p2"` fails with
Busy, and with a runner busy on setup every submission fails with Busy. -/
theorem predict_busy_dedup_witness :
    PredictionRunner.predict runnerBusyPredict (some "p1") =
      (.ok (PredictionRunner.newResponse (some "p1") 0,
            { kind := .predictTask, isDone := false, taskId := 0 }),
       runnerBusyPredict) ∧
    PredictionRunner.predict runnerBusyPredict (some "p2") =
      (.error .busy, runnerBusyPredict) ∧
    PredictionRunner.predict runnerBusySetup (some "p1") =
      (.error .busy, runnerBusySetup) := by
  refine ⟨?_, ?_, ?_⟩
  · exact (predict_busy_dedup runnerBusyPredict _ (some "p1") rfl rfl).2.1
      (PredictionRunner.newResponse (some "p1") 0) "p1" rfl rfl rfl
  · exact (predict_busy_dedup runnerBusyPredict _ (some "p2") rfl rfl).2.2
      (PredictionRunner.newResponse (some "p1") 0) rfl (by decide)
  · exact (predict_busy_dedup runnerBusySetup _ (some "p1") rfl rfl).1 rfl

/-- C6: `is_busy` returns true and changes nothing while the stored task
is still outstanding; it returns false and changes nothing when no task is
stored; and when the stored task has completed it returns false, clears
the stored response and task, and a subsequent `predict` on the cleared
state succeeds with a fresh response and a fresh task — never the stale
handles of the finished job. -/
theorem is_busy_reclaims (s : RunnerState) :
    (s.result = none → PredictionRunner.is_busy s = (false, s)) ∧
    (∀ t, s.result = some t → t.isDone = false →
      PredictionRunner.is_busy s = (true, s)) ∧
    (∀ t, s.result = some t → t.isDone = true →
      PredictionRunner.is_busy s =
        (false, { s with response := none, result := none }) ∧
      ∀ pid,
        PredictionRunner.predict { s with response := none, result := none } pid =
          (.ok (PredictionRunner.newResponse pid s.clock,
                { kind := .predictTask, isDone := false, taskId := s.nextTaskId }),
           { s with
               response := some (PredictionRunner.newResponse pid s.clock),
               result := some { kind := .predictTask, isDone := false,
                                taskId := s.nextTaskId },
               should_cancel := false,
               nextTaskId := s.nextTaskId + 1 })) := by
  refine ⟨?_, ?_, ?_⟩
  · intro hres
    simp [PredictionRunner.is_busy, hres]
  · intro t hres hrun
    simp [PredictionRunner.is_busy, hres, hrun]
  · intro t hres hdone
    refine ⟨by simp [PredictionRunner.is_busy, hres, hdone], ?_⟩
    intro pid
    simp [PredictionRunner.predict, PredictionRunner.is_busy]

/-- C6 witness: on a runner whose prediction task has completed,
`is_busy` returns false and clears the stored state, and a subsequent
submission of `"p2"` succeeds with fresh handles. -/
theorem is_busy_reclaims_witness :
    PredictionRunner.is_busy runnerFinished =
      (false, { runnerFinished with response := none, result := none }) ∧
    PredictionRunner.predict
        { runnerFinished with response := none, result := none } (some "p2") =
      (.ok (PredictionRunner.newResponse (some "p2") 3,
            { kind := .predictTask, isDone := false, taskId := 1 }),
       { runnerFinished with
           response := some (PredictionRunner.newResponse (some "p2") 3),
           result := some { kind := .predictTask, isDone := false, taskId := 1 },
           should_cancel := false, nextTaskId := 2 }) := by
  have h := (is_busy_reclaims runnerFinished).2.2
    { kind := .predictTask, isDone := true, taskId := 0 } rfl rfl
  exact ⟨h.1, h.2 (some "p2")⟩

/-- C5: `cancel` returns silently and leaves the cancellation flag
untouched when no task is outstanding; while busy with a predict job it
fails with `UnknownPredictionError` — leaving the runner state (and so
the flag) unchanged — when the given id does not match the active
response's id, and sets the flag when the id matches or none is given;
and the driving task's poll at the next event observes a set flag,
calls `worker.cancel()` once and clears the flag. -/
theorem cancel_spec (s : RunnerState) (pid : Option String) :
    ((PredictionRunner.is_busy s).1 = false →
      PredictionRunner.cancel s pid = (.ok (), (PredictionRunner.is_busy s).2) ∧
      ((PredictionRunner.is_busy s).2).should_cancel = s.should_cancel) ∧
    (∀ t resp i, s.result = some t → t.isDone = false → s.response = some resp →
      pid = some i → resp.id ≠ some i →
      PredictionRunner.cancel s pid = (.error .unknownPrediction, s)) ∧
    (∀ t resp, s.result = some t → t.isDone = false → s.response = some resp →
      (pid = none ∨ pid = resp.id) →
      PredictionRunner.cancel s pid = (.ok (), { s with should_cancel := true })) ∧
    (∀ (u : Option (String → Option String)) (ps : PredictState) (e : Event),
      ps.should_cancel = true →
      (predictStep u ps e).state.should_cancel = false ∧
      (predictStep u ps e).state.worker_cancels = ps.worker_cancels + 1) := by
  refine ⟨?_, ?_, ?_, ?_⟩
  · intro hfree
    rcases hres : s.result with _ | t
    · simp [PredictionRunner.cancel, PredictionRunner.is_busy, hres]
    · rcases hdone : t.isDone with _ | _
      · exfalso
        simp [PredictionRunner.is_busy, hres, hdone] at hfree
      · simp [PredictionRunner.cancel, PredictionRunner.is_busy, hres, hdone]
  · intro t resp i hres hrun hresp hpid hne
    subst hpid
    have hbusy : PredictionRunner.is_busy s = (true, s) := by
      unfold PredictionRunner.is_busy
      rw [hres]
      simp [hrun]
    have hne' : some i ≠ resp.id := fun h => hne h.symm
    simp [PredictionRunner.cancel, hbusy, hresp, hne']
  · intro t resp hres hrun hresp hmatch
    have hbusy : PredictionRunner.is_busy s = (true, s) := by
      unfold PredictionRunner.is_busy
      rw [hres]
      simp [hrun]
    have hcond : ¬(¬pid = none ∧ ¬pid = resp.id) := by
      rcases hmatch with h | h
      · exact fun hc => hc.1 h
      · exact fun hc => hc.2 h
    simp [PredictionRunner.cancel, hbusy, hresp]
    intro h1
    rcases hmatch with h | h
    · exact absurd h h1
    · exact h
  · intro u ps e hc
    have key : ∀ r, predictStep u ps e = r → r.state.should_cancel = false ∧
        r.state.worker_cancels = ps.worker_cancels + 1 := by
      intro r hr
      unfold predictStep at hr
      simp only [pollCancel_of_set, hc] at hr
      cases e <;> (repeat' split at hr) <;> subst hr <;> exact ⟨rfl, rfl⟩
    exact key _ rfl

/-- C5 witness: canceling an idle runner is silent; canceling `"p2"` while
busy with `"p1"` fails with UnknownPrediction and leaves the state
unchanged; canceling `"p1"` (or canceling without an id) sets the flag;
and one loop step with the flag set clears it and signals the worker. -/
theorem cancel_spec_witness :
    PredictionRunner.cancel runnerIdle (some "p1") = (.ok (), runnerIdle) ∧
    PredictionRunner.cancel runnerBusyPredict (some "p2") =
      (.error .unknownPrediction, runnerBusyPredict) ∧
    PredictionRunner.cancel runnerBusyPredict (some "p1") =
      (.ok (), { runnerBusyPredict with should_cancel := true }) ∧
    PredictionRunner.cancel runnerBusyPredict none =
      (.ok (), { runnerBusyPredict with should_cancel := true }) ∧
    (predictStep none { predictState0 with should_cancel := true }
        Event.heartbeat).state.should_cancel = false ∧
    (predictStep none { predictState0 with should_cancel := true }
        Event.heartbeat).state.worker_cancels = 1 := by
  refine ⟨?_, ?_, ?_, ?_, ?_, ?_⟩
  · exact ((cancel_spec runnerIdle (some "p1")).1 rfl).1
  · exact (cancel_spec runnerBusyPredict (some "p2")).2.1 _
      (PredictionRunner.newResponse (some "p1") 0) "p2" rfl rfl rfl rfl (by decide)
  · exact (cancel_spec runnerBusyPredict (some "p1")).2.2.1 _
      (PredictionRunner.newResponse (some "p1") 0) rfl rfl rfl (Or.inr rfl)
  · exact (cancel_spec runnerBusyPredict none).2.2.1 _
      (PredictionRunner.newResponse (some "p1") 0) rfl rfl rfl (Or.inl rfl)
  · exact ((cancel_spec runnerBusyPredict none).2.2.2 none _ _ rfl).1
  · exact ((cancel_spec runnerBusyPredict none).2.2.2 none _ _ rfl).2

/-- C10: while busy with setup (a stored, unfinished setup task and no
stored response), `cancel` with a non-`None` id hits the
`assert self._response is not None` statement — it neither returns
silently nor raises `UnknownPredictionError`; `cancel` is assertion-safe
when the runner is idle, or busy with a predict job (a response exists). -/
theorem cancel_during_setup_asserts (s : RunnerState) (pid : Option String) :
    (∀ t, s.result = some t → t.kind = .setupTask → t.isDone = false →
      s.response = none → pid ≠ none →
      PredictionRunner.cancel s pid = (.error .assertionFailed, s)) ∧
    ((PredictionRunner.is_busy s).1 = false →
      (PredictionRunner.cancel s pid).1 = .ok ()) ∧
    (∀ t resp, s.result = some t → t.isDone = false → s.response = some resp →
      (PredictionRunner.cancel s pid).1 ≠ .error .assertionFailed) := by
  refine ⟨?_, ?_, ?_⟩
  · intro t hres _hkind hrun hresp _hpid
    simp [PredictionRunner.cancel, PredictionRunner.is_busy, hres, hrun, hresp]
  · intro hfree
    rcases hres : s.result with _ | t
    · simp [PredictionRunner.cancel, PredictionRunner.is_busy, hres]
    · rcases hdone : t.isDone with _ | _
      · exfalso
        simp [PredictionRunner.is_busy, hres, hdone] at hfree
      · simp [PredictionRunner.cancel, PredictionRunner.is_busy, hres, hdone]
  · intro t resp hres hrun hresp
    have hbusy : PredictionRunner.is_busy s = (true, s) := by
      unfold PredictionRunner.is_busy
      rw [hres]
      simp [hrun]
    simp only [PredictionRunner.cancel, hbusy, hresp]
    split
    · simp
    · split <;> simp

/-- C10 witness: canceling `"p1"` while busy with setup trips the
assertion; the same call on an idle runner returns silently, and on a
runner busy with a predict job it does not trip the assertion. -/
theorem cancel_during_setup_asserts_witness :
    PredictionRunner.cancel runnerBusySetup (some "p1") =
      (.error .assertionFailed, runnerBusySetup) ∧
    (PredictionRunner.cancel runnerIdle (some "p1")).1 = .ok () ∧
    (PredictionRunner.cancel runnerBusyPredict (some "p1")).1 ≠
      .error .assertionFailed := by
  refine ⟨?_, ?_, ?_⟩
  · exact (cancel_during_setup_asserts runnerBusySetup (some "p1")).1 _
      rfl rfl rfl rfl (by decide)
  · exact (cancel_during_setup_asserts runnerIdle (some "p1")).2.1 rfl
  · exact (cancel_during_setup_asserts runnerBusyPredict (some "p1")).2.2 _
      (PredictionRunner.newResponse (some "p1") 0) rfl rfl rfl

/-- C2: when an `OutputType` event arrives with a shape already declared,
or an `Output` event arrives with no shape declared, the loop body fails
the result with error `"Predictor returned unexpected output"` and breaks
out: the run over the whole remaining stream equals the run over that one
event, so no subsequent event mutates the result. -/
theorem output_shape_violation (u : Option (String → Option String))
    (s : PredictState) (e : Event) (rest : List Event)
    (htrig : ((∃ m, e = .outputType m) ∧ s.output_type ≠ none) ∨
             ((∃ p, e = .output p) ∧ s.output_type = none)) :
    (∃ s', runEvents u (e :: rest) s = .halted s') ∧
    (finalState u (e :: rest) s).handler.p.status = .failed ∧
    (finalState u (e :: rest) s).handler.p.error =
      some "Predictor returned unexpected output" ∧
    runEvents u (e :: rest) s = runEvents u [e] s := by
  have hstep : predictStep u s e = .halt ((predictStep u s e).state) ∧
      ((predictStep u s e).state).handler.p.status = .failed ∧
      ((predictStep u s e).state).handler.p.error =
        some "Predictor returned unexpected output" := by
    rcases htrig with ⟨⟨m, he⟩, hot⟩ | ⟨⟨p, he⟩, hot⟩ <;> subst he <;>
      by_cases hsc : s.should_cancel <;>
      simp [predictStep, pollCancel, hsc, hot, StepResult.state,
        EventHandler.failed_p]
  have hrun : runEvents u (e :: rest) s = .halted ((predictStep u s e).state) := by
    unfold runEvents
    rw [hstep.1]
    rfl
  have hone : runEvents u [e] s = .halted ((predictStep u s e).state) := by
    unfold runEvents
    rw [hstep.1]
    rfl
  refine ⟨⟨_, hrun⟩, ?_, ?_, hrun.trans hone.symm⟩ <;>
    unfold finalState <;> rw [hrun]
  · exact hstep.2.1
  · exact hstep.2.2

/-- C2 witness: an `Output` event with no declared shape halts processing
with the fixed error, and the subsequent events of the stream leave the
result exactly as it was at the halt. -/
theorem output_shape_violation_witness :
    (finalState none [.output "x", .done false false "", .log "later"]
        predictState0).handler.p.status = .failed ∧
    (finalState none [.output "x", .done false false "", .log "later"]
        predictState0).handler.p.error =
      some "Predictor returned unexpected output" ∧
    runEvents none [.output "x", .done false false "", .log "later"] predictState0 =
      runEvents none [.output "x"] predictState0 := by
  have h := output_shape_violation none predictState0 (.output "x")
    [.done false false "", .log "later"] (Or.inr ⟨⟨"x", rfl⟩, rfl⟩)
  exact ⟨h.2.1, h.2.2.1, h.2.2.2⟩

/-- C7: processing a `Done` event yields the next loop state in which the
completion timestamp is recorded and a `completed` webhook is sent; the
result is marked canceled (error stays empty, metrics untouched) when the
event carries the canceled flag, failed with the error detail when it
carries an error, and succeeded — with `predict_time` set to the elapsed
time between start and completion — otherwise. -/
theorem done_event_spec (u : Option (String → Option String))
    (s : PredictState) (c err : Bool) (detail : String)
    (hsender : s.handler.hasSender = true) (herr : s.handler.p.error = none) :
    ∃ s', predictStep u s (.done c err detail) = .next s' ∧
      s'.handler.p.completed_at = some (s.handler.clock + 1) ∧
      s'.handler.webhooks_sent = s.handler.webhooks_sent ++ [.completed] ∧
      (c = true → s'.handler.p.status = .canceled ∧ s'.handler.p.error = none ∧
        s'.handler.p.metrics = s.handler.p.metrics) ∧
      (c = false → err = true → s'.handler.p.status = .failed ∧
        s'.handler.p.error = some detail ∧
        s'.handler.p.metrics = s.handler.p.metrics) ∧
      (c = false → err = false → s'.handler.p.status = .succeeded ∧
        s'.handler.p.error = none ∧
        s'.handler.p.metrics =
          some ((s.handler.clock + 1) - s.handler.p.started_at)) := by
  refine ⟨(predictStep u s (.done c err detail)).state, ?_, ?_, ?_, ?_, ?_, ?_⟩ <;>
    by_cases hsc : s.should_cancel <;> cases c <;> cases err <;>
    simp [predictStep, pollCancel, hsc, StepResult.state,
      EventHandler.canceled_p, EventHandler.failed_p, EventHandler.succeeded_p,
      EventHandler.canceled_sent, EventHandler.failed_sent,
      EventHandler.succeeded_sent, hsender, herr]

/-- C7 witness: on the fresh handler for `"p1"`, a successful `Done` event
yields a succeeded result; the hypotheses (webhook sender configured, no
error recorded yet) hold for the fixture. -/
theorem done_event_spec_witness :
    predictState0.handler.hasSender = true ∧
    predictState0.handler.p.error = none ∧
    ∃ s', predictStep none predictState0 (.done false false "") = .next s' ∧
      s'.handler.p.status = .succeeded ∧
      s'.handler.p.metrics = some 1 := by
  refine ⟨by decide, by decide, ?_⟩
  obtain ⟨s', h1, _h2, _h3, _h4, _h5, h6⟩ :=
    done_event_spec none predictState0 false false "" (by decide) (by decide)
  refine ⟨s', h1, (h6 rfl rfl).1, ?_⟩
  rw [(h6 rfl rfl).2.2]
  decide

/-- Folding the setup loop over a stream with no `Done` event leaves the
status accumulator untouched. -/
theorem setup_foldl_no_done (evs : List SetupEvent)
    (acc : List String × Option Status) (h : ∀ e ∈ evs, e.isDone = false) :
    (evs.foldl setupStep acc).2 = acc.2 := by
  induction evs generalizing acc with
  | nil => rfl
  | cons e es ih =>
    cases e with
    | log m =>
      rw [List.foldl_cons]
      exact ih _ fun e he => h e (List.mem_cons_of_mem _ he)
    | done b =>
      exact absurd (h _ (List.mem_cons_self _ _)) (by simp [SetupEvent.isDone])

/-- `String.join` distributes over appending a final element. -/
theorem string_join_concat (l : List String) (d : String) :
    String.join (l ++ [d]) = String.join l ++ d := by
  simp [String.join, List.foldl_append]

/-- C8: a setup event stream exhausted without a `Done` event yields a
failed `SetupResult` whose logs end with the explicit missing-done
diagnostic, and the readiness probe is not signalled; in general the
probe is signalled exactly once if and only if the final setup status is
succeeded. -/
theorem setup_missing_done_and_readiness (evs : List SetupEvent)
    (started finished : Nat) (hnd : ∀ e ∈ evs, e.isDone = false) :
    (runSetup evs none started finished).result.status = .failed ∧
    (∃ pre, (runSetup evs none started finished).result.logs =
      pre ++ "Error: did not receive 'done' event from setup!") ∧
    (runSetup evs none started finished).readySignals = 0 ∧
    ∀ (evs' : List SetupEvent) (exc : Option String) (a b : Nat),
      (runSetup evs' exc a b).readySignals =
        if (runSetup evs' exc a b).result.status = .succeeded then 1 else 0 := by
  have hs2 : (evs.foldl setupStep ([], none)).2 = none :=
    setup_foldl_no_done evs ([], none) hnd
  refine ⟨?_, ?_, ?_, ?_⟩
  · unfold runSetup
    simp [hs2]
  · unfold runSetup
    simp only [hs2]
    exact ⟨String.join (evs.foldl setupStep ([], none)).1,
      string_join_concat _ _⟩
  · unfold runSetup
    simp [hs2]
  · intro evs' exc a b
    unfold runSetup
    rfl

/-- C8 witness: a setup stream of a single log line and no `Done` fails
with the diagnostic and never signals the probe. -/
theorem setup_missing_done_and_readiness_witness :
    (runSetup [.log "loading"] none 0 1).result.status = .failed ∧
    (runSetup [.log "loading"] none 0 1).readySignals = 0 ∧
    (runSetup [.log "loading", .done false] none 0 1).readySignals = 1 := by
  have h := setup_missing_done_and_readiness [.log "loading"] 0 1
    (by intro e he; simp at he; subst he; rfl)
  refine ⟨h.1, h.2.2.1, ?_⟩
  rw [h.2.2.2 [.log "loading", .done false] none 0 1]
  decide

/-- C9: the file-upload HTTP client is configured with a retry total of 3,
backoff factor 0.1, retrying only on status codes 408, 429, 500, 502, 503
and 504, and only for PUT requests, mounted for both URL schemes; under
the spec-modelled retry semantics of the collaborator a retry happens
exactly for a PUT on a listed code with fewer than 3 attempts made, and
the backoff delays start at 0.1s and double each retry. -/
theorem file_upload_retry_policy :
    _make_file_upload_http_client.max_retries.total = 3 ∧
    _make_file_upload_http_client.max_retries.backoff_factor = 1 / 10 ∧
    _make_file_upload_http_client.max_retries.status_forcelist =
      [408, 429, 500, 502, 503, 504] ∧
    _make_file_upload_http_client.max_retries.allowed_methods = ["PUT"] ∧
    _make_file_upload_http_client.mounts = ["http://", "https://"] ∧
    (∀ (method : String) (code attempts : Nat),
      _make_file_upload_http_client.max_retries.shouldRetry method code attempts
          = true ↔
        (attempts < 3 ∧ code ∈ [408, 429, 500, 502, 503, 504] ∧
         method = "PUT")) ∧
    _make_file_upload_http_client.max_retries.backoffDelay 1 = 1 / 10 ∧
    (∀ n : Nat,
      _make_file_upload_http_client.max_retries.backoffDelay (n + 2) =
        2 * _make_file_upload_http_client.max_retries.backoffDelay (n + 1)) := by
  refine ⟨rfl, rfl, rfl, rfl, rfl, ?_, by norm_num [Retry.backoffDelay,
    _make_file_upload_http_client], ?_⟩
  · intro method code attempts
    simp [Retry.shouldRetry, _make_file_upload_http_client]
  · intro n
    have e1 : n + 2 - 1 = n + 1 := rfl
    have e2 : n + 1 - 1 = n := rfl
    simp only [Retry.backoffDelay, e1, e2, pow_succ]
    ring

/-- C3 counterexample: with a single-value shape declared and two `Output`
events, the second `set_output` call raises; the exception escapes the
driving task (the task's exception slot is non-empty) and the completion
callback sets the process-level shutdown flag — contrary to the claim
that the exception does not leave the task and no shutdown signal is set. -/
theorem translation_exception_escapes_task :
    (predictTask none [.outputType false, .output "x", .output "y"]
        predictState0).2 =
      some (.assertionError "Predictor unexpectedly returned multiple outputs") ∧
    handle_error (some false)
      (predictTask none [.outputType false, .output "x", .output "y"]
        predictState0).2 = some true := by
  decide

/-- C3 amended: every exception raised by the `_predict` event loop is
absorbed into the Job Result — status failed with the exception's message,
traceback appended to the logs — but it is then re-raised from the driving
task, and the completion callback sets the process-level shutdown signal
(when a shutdown event is configured). -/
theorem contained_failure_recorded_then_reraised
    (u : Option (String → Option String)) (evs : List Event)
    (s s' : PredictState) (ex : PredictException)
    (h : runEvents u evs s = .raised s' ex) :
    (predictTask u evs s).2 = some ex ∧
    (predictTask u evs s).1.handler.p.status = .failed ∧
    (predictTask u evs s).1.handler.p.error = some ex.message ∧
    (predictTask u evs s).1.handler.p.logs =
      s'.handler.p.logs ++ tracebackText ex ∧
    handle_error (some false) (predictTask u evs s).2 = some true := by
  unfold predictTask
  rw [h]
  refine ⟨rfl, ?_, ?_, ?_, rfl⟩ <;>
    simp [EventHandler.failed_p, EventHandler.append_logs_p]

/-- C3 amended witness: a failing file uploader on a multi-output job
raises `FileUploadError`; the result is failed, the exception escapes the
task and the shutdown flag is set. -/
theorem contained_failure_recorded_then_reraised_witness :
    (predictTask (some fun _ => none) [.outputType true, .output "a"]
        predictState0).2 =
      some (.fileUploadError "Got error trying to upload output files") ∧
    (predictTask (some fun _ => none) [.outputType true, .output "a"]
        predictState0).1.handler.p.status = .failed ∧
    handle_error (some false)
      (predictTask (some fun _ => none) [.outputType true, .output "a"]
        predictState0).2 = some true := by
  have h : runEvents (some fun _ => none) [.outputType true, .output "a"]
      predictState0 =
      .raised
        (finalState (some fun _ => none) [.outputType true, .output "a"]
          predictState0)
        (.fileUploadError "Got error trying to upload output files") := by
    decide
  have hmain := contained_failure_recorded_then_reraised (some fun _ => none)
    [.outputType true, .output "a"] predictState0 _ _ h
  exact ⟨hmain.1, hmain.2.1, hmain.2.2.2.2⟩

/-- C4 counterexample: `_predict` does not break out of the loop on a
`Done` event, so a second `Done` event after a terminal `canceled` status
changes the status to `succeeded` — the status is not monotonic on streams
with events after a `Done`. -/
theorem terminal_status_mutated_by_later_event :
    (finalState none [.done true false ""] predictState0).handler.p.status =
      .canceled ∧
    Status.isTerminal .canceled = true ∧
    (finalState none [.done true false "", .done false false ""]
        predictState0).handler.p.status = .succeeded := by
  decide

/-- Running the loop over an appended stream runs the second part from the
state the first part finished in, and preserves an early halt or raise. -/
theorem runEvents_append (u : Option (String → Option String))
    (l1 l2 : List Event) (s : PredictState) :
    runEvents u (l1 ++ l2) s =
      match runEvents u l1 s with
      | .finished s' => runEvents u l2 s'
      | .halted s' => .halted s'
      | .raised s' ex => .raised s' ex := by
  induction l1 generalizing s with
  | nil => rfl
  | cons e es ih =>
    rcases hstep : predictStep u s e with s' | s' | ⟨s', ex⟩ <;>
      simp only [List.cons_append, runEvents, hstep] <;>
      try exact ih s'

/-- `set_output` never changes the status. -/
theorem EventHandler.set_output_ok_status (u : Option (String → Option String))
    (h : EventHandler) (o : OutputValue) (h' : EventHandler)
    (hw : h.set_output u o = .ok h') : h'.p.status = h.p.status := by
  unfold EventHandler.set_output at hw
  split at hw
  · cases hw
  · split at hw
    · injection hw with h1
      rw [← h1]
    · cases hw

/-- `append_output` never changes the status. -/
theorem EventHandler.append_output_ok_status
    (u : Option (String → Option String)) (h : EventHandler) (payload : String)
    (h' : EventHandler) (hw : h.append_output u payload = .ok h') :
    h'.p.status = h.p.status := by
  unfold EventHandler.append_output at hw
  split at hw
  · split at hw
    · injection hw with h1
      rw [← h1, EventHandler._send_webhook_p]
    · cases hw
  · cases hw

/-- A loop step that continues with the next event — on anything but a
`Done` event — leaves the status unchanged. -/
theorem predictStep_next_status (u : Option (String → Option String))
    (s : PredictState) (e : Event) (hnd : e.isDone = false)
    (s' : PredictState) (h : predictStep u s e = .next s') :
    s'.handler.p.status = s.handler.p.status := by
  cases e with
  | done c err detail => exact absurd hnd (by simp [Event.isDone])
  | _ =>
    simp only [predictStep] at h
    repeat' split at h
    all_goals first
      | exact StepResult.noConfusion h
      | (rename_i hset
         cases h
         first
           | exact (EventHandler.set_output_ok_status _ _ _ _ hset).trans
               (by rw [pollCancel_handler])
           | exact (EventHandler.append_output_ok_status _ _ _ _ hset).trans
               (by rw [pollCancel_handler]))
      | (cases h
         try simp [EventHandler.append_logs_p, pollCancel_handler]
         done)

/-- A run that exhausts its stream starting from a non-terminal status and
ending in a terminal one must have consumed a `Done` event. -/
theorem runEvents_finished_terminal_done (u : Option (String → Option String))
    (evs : List Event) (s s' : PredictState)
    (hrun : runEvents u evs s = .finished s')
    (hnt : s.handler.p.status.isTerminal = false)
    (ht : s'.handler.p.status.isTerminal = true) :
    ∃ e ∈ evs, e.isDone = true := by
  induction evs generalizing s with
  | nil =>
    injection hrun with h1
    rw [h1] at hnt
    rw [hnt] at ht
    cases ht
  | cons e es ih =>
    unfold runEvents at hrun
    rcases hstep : predictStep u s e with s₁ | s₁ | ⟨s₁, ex⟩ <;>
      rw [hstep] at hrun
    · by_cases hd : e.isDone = true
      · exact ⟨e, List.mem_cons_self _ _, hd⟩
      · have hst := predictStep_next_status u s e (by simpa using hd) s₁ hstep
        have hnt₁ : s₁.handler.p.status.isTerminal = false := by
          rw [hst]
          exact hnt
        obtain ⟨e', he', hd'⟩ := ih s₁ hrun hnt₁
        exact ⟨e', List.mem_cons_of_mem _ he', hd'⟩
    · cases hrun
    · cases hrun

/-- C4 amended: the status is monotonic — once a prefix of the stream has
driven the result to a terminal status, processing any longer prefix
leaves the loop state exactly as it was — provided `Done` events occur
only in final position (as produced by a well-behaved worker); the
translator itself does not halt on `Done`, so a stream carrying events
after a `Done` can still mutate the result (see the counterexample). -/
theorem status_monotonic_when_done_last (u : Option (String → Option String))
    (evs : List Event) (s : PredictState)
    (hstart : s.handler.p.status = .processing)
    (hdone : ∀ e ∈ evs.dropLast, e.isDone = false)
    (k j : Nat) (hkj : k ≤ j)
    (hterm : ((finalState u (evs.take k) s).handler.p.status).isTerminal
      = true) :
    finalState u (evs.take j) s = finalState u (evs.take k) s := by
  have htk : evs.take j = evs.take k ++ (evs.drop k).take (j - k) := by
    rw [← List.take_add]
    congr 1
    omega
  rcases hout : runEvents u (evs.take k) s with s' | s' | ⟨s', ex⟩
  · have hnt : s.handler.p.status.isTerminal = false := by
      rw [hstart]
      rfl
    have ht' : s'.handler.p.status.isTerminal = true := by
      rw [finalState, hout] at hterm
      exact hterm
    obtain ⟨e, he, hd⟩ := runEvents_finished_terminal_done u _ s s' hout hnt ht'
    have hk : evs.length ≤ k := by
      by_contra hlt
      push_neg at hlt
      have hsub : evs.take k ⊆ evs.dropLast := by
        rw [List.dropLast_eq_take]
        have hkk : evs.take k = (evs.take (evs.length - 1)).take k := by
          rw [List.take_take]
          congr 1
          omega
        rw [hkk]
        exact List.take_subset _ _
      rw [hdone e (hsub he)] at hd
      cases hd
    rw [List.take_of_length_le hk, List.take_of_length_le (hk.trans hkj)]
  · rw [finalState, finalState, htk, runEvents_append, hout]
  · rw [finalState, finalState, htk, runEvents_append, hout]

/-- C4 amended witness: with a stream whose only `Done` is last, once the
result is terminal after the full stream, taking a longer prefix changes
nothing. -/
theorem status_monotonic_when_done_last_witness :
    ((finalState none
        ([.log "a", .done false false ""].take 2) predictState0).handler.p.status
      ).isTerminal = true ∧
    finalState none ([.log "a", .done false false ""].take 3) predictState0 =
      finalState none ([.log "a", .done false false ""].take 2) predictState0 := by
  refine ⟨by decide, ?_⟩
  exact status_monotonic_when_done_last none [.log "a", .done false false ""]
    predictState0 (by decide) (by decide) 2 3 (by decide) (by decide)

end Cog
